import Mathlib

/-!
Shallow embedding of the `create_agentverse_agent` core: the configuration
model (`context.py`), the template renderer (`templates.py`) and the
scaffolder (`scaffold.py`), together with theorems settling the frozen
claims about them.
-/

/-! ## Configuration model (`context.py`) -/

/-- The stored fields of `AgentContext` (a pydantic `BaseModel`).
Integer fields are embedded as `Int` (Python `int`, `strict=True`);
optional string fields as `Option String`. -/
structure AgentContext where
  agent_name : Option String
  agent_seed_phrase : String
  agent_port : Int
  agent_description : String
  hosting_address : String
  hosting_port : Int
  env : String
  agentverse_api_key : Option String
  max_processed_messages : Int
  processed_message_ttl_minutes : Int
  cleanup_interval_seconds : Int
  rate_limit_max_requests : Int
  rate_limit_window_minutes : Int
deriving Repr, DecidableEq

/-- The regex class `\s` (ASCII part), as used in the `agent_name`
pattern `^[a-zA-Z0-9\s]+$`: space, tab, newline, vertical tab,
form feed, carriage return. -/
def isRegexSpace (c : Char) : Bool :=
  c = ' ' || c = '\t' || c = '\n' || c = '\x0b' || c = '\x0c' || c = '\r'

/-- One character of the `agent_name` pattern class `[a-zA-Z0-9\s]`. -/
def isNameChar (c : Char) : Bool :=
  c.isAlpha || c.isDigit || isRegexSpace c

/-- One character of the class `[a-zA-Z0-9]` (the `agent_seed_phrase` pattern). -/
def isAlnumChar (c : Char) : Bool :=
  c.isAlpha || c.isDigit

/-- One character of the class `[A-Za-z0-9\-_]` from the API-key pattern. -/
def isUrlSafeChar (c : Char) : Bool :=
  c.isAlpha || c.isDigit || c = '-' || c = '_'

/-- Field constraint of `agent_name`: optional; if present,
`min_length=1`, `max_length=100`, pattern `^[a-zA-Z0-9\s]+$`. -/
def agent_name_ok : Option String → Bool
  | none => true
  | some s => decide (1 ≤ s.length) && decide (s.length ≤ 100) && s.data.all isNameChar

/-- Field constraint of `agent_seed_phrase`:
`min_length=1`, `max_length=500`, pattern `^[a-zA-Z0-9]+$`. -/
def agent_seed_phrase_ok (s : String) : Bool :=
  decide (1 ≤ s.length) && decide (s.length ≤ 500) && s.data.all isAlnumChar

/-- Port constraint shared by `agent_port` and `hosting_port`: `ge=1024`, `le=65535`. -/
def port_ok (p : Int) : Bool :=
  decide (1024 ≤ p) && decide (p ≤ 65535)

/-- Field constraint of `agent_description`: `min_length=1`, `max_length=500`. -/
def agent_description_ok (s : String) : Bool :=
  decide (1 ≤ s.length) && decide (s.length ≤ 500)

/-- Field constraint of `hosting_address`: `min_length=1`, `max_length=255`. -/
def hosting_address_ok (s : String) : Bool :=
  decide (1 ≤ s.length) && decide (s.length ≤ 255)

/-- The JWT-shaped pattern
`^eyJ[A-Za-z0-9\-_]+\.eyJ[A-Za-z0-9\-_]+\.[A-Za-z0-9\-_=]*$`.
Neither character class contains a dot, so a full match is exactly:
three dot-separated parts, the first two of the form `eyJ` followed by a
non-empty run of URL-safe characters, the third a possibly empty run of
URL-safe or `=` characters. -/
def jwt_shaped (s : String) : Bool :=
  match s.splitOn "." with
  | [p1, p2, p3] =>
      p1.startsWith "eyJ" && decide (1 ≤ (p1.drop 3).length) &&
        (p1.drop 3).data.all isUrlSafeChar &&
      p2.startsWith "eyJ" && decide (1 ≤ (p2.drop 3).length) &&
        (p2.drop 3).data.all isUrlSafeChar &&
      p3.data.all (fun c => isUrlSafeChar c || c = '=')
  | _ => false

/-- Field constraint of `agentverse_api_key`: optional; if present,
`min_length=20`, `max_length=1000` and the JWT-shaped pattern. -/
def agentverse_api_key_ok : Option String → Bool
  | none => true
  | some s => decide (20 ≤ s.length) && decide (s.length ≤ 1000) && jwt_shaped s

/-- A single pydantic field check: empty error list when the constraint
holds, otherwise the offending field name. -/
def fieldCheck (b : Bool) (name : String) : List String :=
  if b then [] else [name]

/-- The per-field validation pass, in field declaration order: the list of
field names whose constraints fail (pydantic collects all field errors).
`env` has no constraint. -/
def fieldErrors (c : AgentContext) : List String :=
  fieldCheck (agent_name_ok c.agent_name) "agent_name" ++
  fieldCheck (agent_seed_phrase_ok c.agent_seed_phrase) "agent_seed_phrase" ++
  fieldCheck (port_ok c.agent_port) "agent_port" ++
  fieldCheck (agent_description_ok c.agent_description) "agent_description" ++
  fieldCheck (hosting_address_ok c.hosting_address) "hosting_address" ++
  fieldCheck (port_ok c.hosting_port) "hosting_port" ++
  fieldCheck (agentverse_api_key_ok c.agentverse_api_key) "agentverse_api_key" ++
  fieldCheck (decide (1 ≤ c.max_processed_messages)) "max_processed_messages" ++
  fieldCheck (decide (1 ≤ c.processed_message_ttl_minutes)) "processed_message_ttl_minutes" ++
  fieldCheck (decide (10 ≤ c.cleanup_interval_seconds)) "cleanup_interval_seconds" ++
  fieldCheck (decide (1 ≤ c.rate_limit_max_requests)) "rate_limit_max_requests" ++
  fieldCheck (decide (1 ≤ c.rate_limit_window_minutes)) "rate_limit_window_minutes"

/-- The two ways constructing an `AgentContext` can fail:
a pydantic `ValidationError` carrying the offending field names, or the
distinct `AgentContextError` raised by the `mode="after"` model validator
`check_ports_different` (which pydantic runs only when every field
validated, and which escapes unwrapped since it is not a `ValueError`). -/
inductive ConstructError
  | validationError (fields : List String)
  | agentContextError (agent_port hosting_port : Int)
deriving Repr, DecidableEq

/-- Constructing an `AgentContext`: per-field validation first; only when
it passes does `check_ports_different` run, raising `AgentContextError`
when `agent_port == hosting_port`. -/
def validate (c : AgentContext) : Except ConstructError AgentContext :=
  if fieldErrors c = [] then
    if c.agent_port = c.hosting_port then
      .error (.agentContextError c.agent_port c.hosting_port)
    else
      .ok c
  else
    .error (.validationError (fieldErrors c))

/-! ## Derived values (computed properties of `context.py`) -/

/-- Character-wise string map (`String.map`, spelled out on `data`). -/
def strMap (f : Char → Char) (s : String) : String :=
  ⟨s.data.map f⟩

/-- Python `str.lower()` restricted to ASCII, as a character-wise map. -/
def pyLower (s : String) : String :=
  strMap Char.toLower s

/-- Python `str.replace(old, new)` for single-character `old` and `new`,
as a character-wise map. -/
def pyReplaceChar (old new : Char) (s : String) : String :=
  strMap (fun c => if c = old then new else c) s

/-- `display_name`: `self.agent_name or "Agent " + self.agent_seed_phrase[:8]`.
Python `or` falls through on a falsy (empty) string as well as on `None`. -/
def display_name (c : AgentContext) : String :=
  match c.agent_name with
  | some n => if n = "" then "Agent " ++ c.agent_seed_phrase.take 8 else n
  | none => "Agent " ++ c.agent_seed_phrase.take 8

/-- `safe_name`: `self.display_name.lower().replace(" ", "-").replace("_", "-")`. -/
def safe_name (c : AgentContext) : String :=
  pyReplaceChar '_' '-' (pyReplaceChar ' ' '-' (pyLower (display_name c)))

/-- `project_path`: `Path.cwd() / self.safe_name`, with the current working
directory passed explicitly and POSIX `/` joining. -/
def project_path (cwd : String) (c : AgentContext) : String :=
  cwd ++ "/" ++ safe_name c

/-- `agent_route`: `f"/{self.safe_name}"`. -/
def agent_route (c : AgentContext) : String :=
  "/" ++ safe_name c

/-- `hosting_endpoint`: `f"http://{self.hosting_address}:{self.hosting_port}"`. -/
def hosting_endpoint (c : AgentContext) : String :=
  "http://" ++ c.hosting_address ++ ":" ++ toString c.hosting_port

/-! ## `model_dump` and `__repr__` -/

/-- A value in the `model_dump` dictionary. -/
inductive Value
  | s (v : String)
  | i (v : Int)
  | o (v : Option String)
deriving Repr, DecidableEq

/-- `super().model_dump(**kwargs)`: every stored field keyed by its name,
in declaration order. -/
def base_dump (c : AgentContext) : List (String × Value) :=
  [("agent_name", .o c.agent_name),
   ("agent_seed_phrase", .s c.agent_seed_phrase),
   ("agent_port", .i c.agent_port),
   ("agent_description", .s c.agent_description),
   ("hosting_address", .s c.hosting_address),
   ("hosting_port", .i c.hosting_port),
   ("env", .s c.env),
   ("agentverse_api_key", .o c.agentverse_api_key),
   ("max_processed_messages", .i c.max_processed_messages),
   ("processed_message_ttl_minutes", .i c.processed_message_ttl_minutes),
   ("cleanup_interval_seconds", .i c.cleanup_interval_seconds),
   ("rate_limit_max_requests", .i c.rate_limit_max_requests),
   ("rate_limit_window_minutes", .i c.rate_limit_window_minutes)]

/-- The overridden `model_dump`: the base dump updated with the five
computed properties. None of the five keys occurs among the stored field
names, so the dict `update` appends new entries. -/
def model_dump (cwd : String) (c : AgentContext) : List (String × Value) :=
  base_dump c ++
  [("display_name", .s (display_name c)),
   ("safe_name", .s (safe_name c)),
   ("project_path", .s (project_path cwd c)),
   ("agent_route", .s (agent_route c)),
   ("hosting_endpoint", .s (hosting_endpoint c))]

/-- The entries rendered by the overridden `__repr__` (and `__str__`):
the `model_dump` items with `agent_seed_phrase` and `agentverse_api_key`
filtered out; the repr string is `AgentContext(` followed by the
comma-joined `k=v` pieces of exactly this list. -/
def repr_fields (cwd : String) (c : AgentContext) : List (String × Value) :=
  (model_dump cwd c).filter
    (fun kv => !(kv.1 == "agent_seed_phrase" || kv.1 == "agentverse_api_key"))

/-- Plain attribute assignment `context.agent_port = p`: the model is not
frozen and `validate_assignment` is not enabled, so no validator runs. -/
def set_agent_port (c : AgentContext) (p : Int) : AgentContext :=
  { c with agent_port := p }

/-! ## Seed-phrase generation (`secrets.token_hex(32)`) -/

/-- The lowercase hex digit of a value below 16 (codepoint arithmetic:
48 is the digit zero, 87 + 10 is the letter a). -/
def hexDigit (n : Nat) : Char :=
  if n < 10 then Char.ofNat (48 + n) else Char.ofNat (87 + n)

/-- Hex encoding of a byte sequence, two digits per byte. -/
def token_hex_chars : List Nat → List Char
  | [] => []
  | b :: rest => hexDigit (b / 16) :: hexDigit (b % 16) :: token_hex_chars rest

/-- `secrets.token_hex` applied to the drawn bytes: the default
`agent_seed_phrase` is `token_hex` of a 32-byte draw from the
`secrets` CSPRNG. -/
def token_hex (bytes : List Nat) : String :=
  ⟨token_hex_chars bytes⟩

/-! ## Template renderer (`templates.py`) -/

/-- A jinja2 engine-level exception: `TemplateNotFound` from
`get_template`, `UndefinedError` from rendering, or any other engine
failure. These are the exceptions the `try` block of
`TemplateRenderer.render` may catch. -/
inductive EngineError
  | templateNotFound (template : String)
  | undefinedError (name : String)
  | otherError (msg : String)
deriving Repr, DecidableEq

/-- The renderer-specific `TemplateError` raised by
`TemplateRenderer.render`: its message names the failing template
identifier, and `raise ... from err` chains the engine-level cause. -/
structure TemplateError where
  template : String
  cause : EngineError
deriving Repr, DecidableEq

/-- `TemplateRenderer.render`: runs the engine (`get_template` followed by
`template.render(**context)`, abstracted as one engine call) and wraps any
engine-level exception in a `TemplateError` naming the template. -/
def TemplateRenderer.render
    (engine : String → List (String × Value) → Except EngineError String)
    (template_name : String) (context : List (String × Value)) :
    Except TemplateError String :=
  match engine template_name context with
  | .ok result => .ok result
  | .error err => .error { template := template_name, cause := err }

/-! ## Scaffolder (`scaffold.py`) -/

/-- `Scaffolder.TEMPLATE_MAP`: the static template-to-output catalog, in
declaration (= dict insertion) order. -/
def TEMPLATE_MAP : List (String × String) :=
  [("template.agent.py.j2", "agent.py"),
   ("template.main.py.j2", "main.py"),
   ("template.Dockerfile.j2", "Dockerfile"),
   ("template.docker-compose.yml.j2", "docker-compose.yml"),
   ("template.pyproject.toml.j2", "pyproject.toml"),
   ("template.requirements.txt.j2", "requirements.txt"),
   ("template.env.j2", ".env"),
   ("template.README.md.j2", "README.md")]

/-- The state of the target project directory: whether it exists, and its
files as a name-to-content association list. -/
structure DirState where
  present : Bool
  files : List (String × String)
deriving Repr, DecidableEq

/-- Writing a file: replace the entry with this name in place, or append
a new one. -/
def fsInsert (key v : String) : List (String × String) → List (String × String)
  | [] => [(key, v)]
  | (k0, v0) :: rest =>
      if k0 = key then (key, v) :: rest else (k0, v0) :: fsInsert key v rest

/-- Reading a file by name. -/
def fsLookup (q : String) : List (String × String) → Option String
  | [] => none
  | (k0, v0) :: rest => if k0 = q then some v0 else fsLookup q rest

/-- How `Scaffolder.create_project` fails: the `ScaffoldError` raised when
the directory exists without `overwrite` (carrying the path), or a
`TemplateError` propagating unmodified out of `renderer.render`. -/
inductive CreateProjectError
  | scaffoldError (path : String)
  | templateError (e : TemplateError)
deriving Repr, DecidableEq

/-- The write loop of `create_project`: for each catalog entry render the
template against the dumped context and write the output file. A render
failure aborts the loop, leaving the files written so far in place. -/
def write_files
    (render : String → List (String × Value) → Except TemplateError String)
    (ctx : List (String × Value)) :
    List (String × String) → DirState → Except TemplateError Unit × DirState
  | [], st => (.ok (), st)
  | (tname, oname) :: rest, st =>
      match render tname ctx with
      | .error e => (.error e, st)
      | .ok content =>
          write_files render ctx rest { st with files := fsInsert oname content st.files }

/-- `Scaffolder.create_project`: existence check, then
`mkdir(parents=True, exist_ok=overwrite)` (the single-directory state
collapses parent creation to `present := true`), then one rendered write
per `TEMPLATE_MAP` entry against `context.model_dump()`, returning the
project path. The directory state is threaded alongside the result. -/
def create_project (cwd : String)
    (render : String → List (String × Value) → Except TemplateError String)
    (st : DirState) (c : AgentContext) (overwrite : Bool) :
    Except CreateProjectError String × DirState :=
  if st.present && !overwrite then
    (.error (.scaffoldError (project_path cwd c)), st)
  else
    match write_files render (model_dump cwd c) TEMPLATE_MAP { st with present := true } with
    | (.ok _, st2) => (.ok (project_path cwd c), st2)
    | (.error e, st2) => (.error (.templateError e), st2)

/-! ## Helper lemmas -/

theorem fieldCheck_eq_nil {b : Bool} {name : String} :
    fieldCheck b name = [] ↔ b = true := by
  cases b <;> simp [fieldCheck]

theorem fieldErrors_nil_iff (c : AgentContext) :
    fieldErrors c = [] ↔
      (agent_name_ok c.agent_name = true ∧
       agent_seed_phrase_ok c.agent_seed_phrase = true ∧
       port_ok c.agent_port = true ∧
       agent_description_ok c.agent_description = true ∧
       hosting_address_ok c.hosting_address = true ∧
       port_ok c.hosting_port = true ∧
       agentverse_api_key_ok c.agentverse_api_key = true ∧
       1 ≤ c.max_processed_messages ∧
       1 ≤ c.processed_message_ttl_minutes ∧
       10 ≤ c.cleanup_interval_seconds ∧
       1 ≤ c.rate_limit_max_requests ∧
       1 ≤ c.rate_limit_window_minutes) := by
  simp [fieldErrors, List.append_eq_nil, fieldCheck_eq_nil]

theorem validate_ok_iff (c : AgentContext) :
    validate c = .ok c ↔ (fieldErrors c = [] ∧ c.agent_port ≠ c.hosting_port) := by
  unfold validate
  by_cases h1 : fieldErrors c = []
  · by_cases h2 : c.agent_port = c.hosting_port <;> simp [h1, h2]
  · simp [h1]

/-- A concrete configuration with every field valid (used by witnesses). -/
def exCtx : AgentContext :=
  { agent_name := some "My Agent"
    agent_seed_phrase := "a1b2c3d4e5f6"
    agent_port := 8000
    agent_description := "A helpful assistant."
    hosting_address := "localhost"
    hosting_port := 8080
    env := "development"
    agentverse_api_key := none
    max_processed_messages := 1000
    processed_message_ttl_minutes := 60
    cleanup_interval_seconds := 300
    rate_limit_max_requests := 30
    rate_limit_window_minutes := 60 }

/-- `exCtx` with both ports set to the same valid value. -/
def exCtxConflict : AgentContext :=
  { exCtx with agent_port := 9000, hosting_port := 9000 }

/-- Claim C3: with every per-field constraint satisfied and
`agent_port = hosting_port = p` in the valid range, construction fails
with the distinct `AgentContextError` (never a field `ValidationError`),
and an `AgentContextError` can only arise once per-field validation has
passed. -/
theorem equal_ports_agent_context_error (c : AgentContext) (p : Int)
    (hfields : fieldErrors c = []) (hap : c.agent_port = p) (hhp : c.hosting_port = p)
    (_hlo : 1024 ≤ p) (_hhi : p ≤ 65535) :
    validate c = .error (.agentContextError p p) ∧
    (∀ errs, validate c ≠ .error (.validationError errs)) ∧
    (∀ c2, (∃ q r, validate c2 = .error (.agentContextError q r)) → fieldErrors c2 = []) := by
  refine ⟨?_, ?_, ?_⟩
  · simp [validate, hfields, hap, hhp]
  · intro errs h
    rw [show validate c = .error (.agentContextError p p) by simp [validate, hfields, hap, hhp]] at h
    exact ConstructError.noConfusion (Except.error.inj h)
  · rintro c2 ⟨q, r, h⟩
    by_cases h2 : fieldErrors c2 = []
    · exact h2
    · simp [validate, h2] at h

theorem equal_ports_agent_context_error_witness :
    validate exCtxConflict = .error (.agentContextError 9000 9000) :=
  (equal_ports_agent_context_error exCtxConflict 9000 (by decide) rfl rfl
    (by decide) (by decide)).1

/-- `exCtx` with an agent name containing a tab character. -/
def tabNameCtx : AgentContext :=
  { exCtx with agent_name := some "a\tb" }

/-- Claim C7 counterexample: the name `"a\tb"` contains a character (the
tab) outside `[A-Za-z0-9 ]`, yet construction succeeds: the source
pattern class is `[a-zA-Z0-9\s]` and `\s` admits tab, so the claim as
stated fails on this input. -/
theorem agent_name_tab_accepted :
    validate tabNameCtx = .ok tabNameCtx ∧
    '\t' ∈ "a\tb".data ∧
    ('\t'.isAlpha || '\t'.isDigit || '\t' = ' ') = false ∧
    isNameChar '\t' = true := by
  refine ⟨rfl, by decide, by decide, by decide⟩

/-- Claim C7 (amended): for every agent name containing a character
outside the pattern class `[a-zA-Z0-9\s]` (letters, digits, the regex
whitespace class — not merely the plain space), construction fails with a
field `ValidationError` naming `agent_name`. -/
theorem agent_name_bad_char_rejected (c : AgentContext) (n : String) (ch : Char)
    (hname : c.agent_name = some n) (hmem : ch ∈ n.data) (hbad : isNameChar ch = false) :
    validate c = .error (.validationError (fieldErrors c)) ∧
    "agent_name" ∈ fieldErrors c := by
  have hallf : n.data.all isNameChar = false := by
    apply Bool.eq_false_iff.mpr
    intro hall
    have h1 := List.all_eq_true.mp hall ch hmem
    rw [hbad] at h1
    exact Bool.false_ne_true h1
  have hok : agent_name_ok c.agent_name = false := by
    rw [hname]
    simp [agent_name_ok, hallf]
  have hfc : fieldCheck (agent_name_ok c.agent_name) "agent_name" = ["agent_name"] := by
    rw [hok]; rfl
  have hmem2 : "agent_name" ∈ fieldErrors c := by
    unfold fieldErrors
    rw [hfc]
    simp
  have hne : fieldErrors c ≠ [] := by
    intro h
    rw [h] at hmem2
    exact (List.not_mem_nil _) hmem2
  constructor
  · unfold validate
    rw [if_neg hne]
  · exact hmem2

/-- `exCtx` with an agent name containing an exclamation mark. -/
def bangNameCtx : AgentContext :=
  { exCtx with agent_name := some "Agent!" }

theorem agent_name_bad_char_rejected_witness :
    validate bangNameCtx = .error (.validationError (fieldErrors bangNameCtx)) ∧
    "agent_name" ∈ fieldErrors bangNameCtx :=
  agent_name_bad_char_rejected bangNameCtx "Agent!" '!' rfl (by decide) (by decide)

/-- Claim C8: `model_dump` holds every stored field keyed by name — the
two sensitive fields included, with their stored values — plus the five
computed properties, while the `__repr__` entries are exactly the dumped
keys minus `agent_seed_phrase` and `agentverse_api_key`. -/
theorem model_dump_and_repr_keys (cwd : String) (c : AgentContext) :
    (model_dump cwd c).map Prod.fst =
      ["agent_name", "agent_seed_phrase", "agent_port", "agent_description",
       "hosting_address", "hosting_port", "env", "agentverse_api_key",
       "max_processed_messages", "processed_message_ttl_minutes",
       "cleanup_interval_seconds", "rate_limit_max_requests",
       "rate_limit_window_minutes", "display_name", "safe_name",
       "project_path", "agent_route", "hosting_endpoint"] ∧
    ("agent_seed_phrase", Value.s c.agent_seed_phrase) ∈ model_dump cwd c ∧
    ("agentverse_api_key", Value.o c.agentverse_api_key) ∈ model_dump cwd c ∧
    ("hosting_endpoint", Value.s (hosting_endpoint c)) ∈ model_dump cwd c ∧
    (repr_fields cwd c).map Prod.fst =
      ["agent_name", "agent_port", "agent_description",
       "hosting_address", "hosting_port", "env",
       "max_processed_messages", "processed_message_ttl_minutes",
       "cleanup_interval_seconds", "rate_limit_max_requests",
       "rate_limit_window_minutes", "display_name", "safe_name",
       "project_path", "agent_route", "hosting_endpoint"] := by
  refine ⟨rfl, ?_, ?_, ?_, rfl⟩ <;> simp [model_dump, base_dump]

/-- The spec-side formula for `safe_name`: lowercase the display name and
replace each space or underscore by a hyphen, as a single character map. -/
def spec_safe_name (s : String) : String :=
  ⟨s.data.map (fun c => if c.toLower = ' ' ∨ c.toLower = '_' then '-' else c.toLower)⟩

theorem safe_char_step (ch : Char) :
    (fun c => if c = '_' then '-' else c)
        ((fun c => if c = ' ' then '-' else c) ch.toLower) =
      (if ch.toLower = ' ' ∨ ch.toLower = '_' then '-' else ch.toLower) := by
  by_cases h1 : ch.toLower = ' '
  · rw [h1]; decide
  · by_cases h2 : ch.toLower = '_'
    · rw [h2]; decide
    · simp [h1, h2]

theorem safe_name_eq_spec (c : AgentContext) :
    safe_name c = spec_safe_name (display_name c) := by
  unfold safe_name spec_safe_name pyReplaceChar pyLower strMap
  refine congrArg String.mk ?_
  rw [List.map_map, List.map_map]
  refine congrArg (fun f => List.map f (display_name c).data) (funext fun ch => ?_)
  simp only [Function.comp_apply]
  exact safe_char_step ch

/-- Claim C2: on every successfully constructed configuration the derived
values match their formulas: `display_name` is the agent name when
present (else `"Agent "` plus the first 8 seed characters), `safe_name`
is the lowercased display name with spaces and underscores hyphenated,
`agent_route` is `"/" ++ safe_name`, and `hosting_endpoint` is
`"http://" ++ hosting_address ++ ":" ++ hosting_port`. -/
theorem derived_values_formulas (c : AgentContext) (h : validate c = .ok c) :
    (∀ n, c.agent_name = some n → display_name c = n) ∧
    (c.agent_name = none → display_name c = "Agent " ++ c.agent_seed_phrase.take 8) ∧
    safe_name c = spec_safe_name (display_name c) ∧
    agent_route c = "/" ++ safe_name c ∧
    hosting_endpoint c = "http://" ++ c.hosting_address ++ ":" ++ toString c.hosting_port := by
  obtain ⟨hfields, -⟩ := (validate_ok_iff c).mp h
  refine ⟨?_, ?_, safe_name_eq_spec c, rfl, rfl⟩
  · intro n hn
    have hok := ((fieldErrors_nil_iff c).mp hfields).1
    rw [hn] at hok
    have hlen : 1 ≤ n.length := by
      have := (Bool.and_eq_true _ _).mp ((Bool.and_eq_true _ _).mp hok).1
      exact of_decide_eq_true this.1
    have hne : n ≠ "" := by
      intro he
      rw [he] at hlen
      exact absurd hlen (by decide)
    simp [display_name, hn, hne]
  · intro hn
    simp [display_name, hn]

theorem derived_values_formulas_witness :
    validate exCtx = .ok exCtx ∧
    display_name exCtx = "My Agent" ∧
    safe_name exCtx = spec_safe_name (display_name exCtx) ∧
    safe_name exCtx = "my-agent" ∧
    agent_route exCtx = "/my-agent" ∧
    hosting_endpoint exCtx = "http://localhost:8080" :=
  ⟨rfl,
   (derived_values_formulas exCtx rfl).1 "My Agent" rfl,
   (derived_values_formulas exCtx rfl).2.2.1,
   by decide,
   by decide,
   by decide⟩

/-- Claim C9: the model is not frozen and `validate_assignment` is not
enabled, so assignment after construction runs no validator: setting
`agent_port` to `hosting_port` on a validated configuration succeeds,
changes only that field, and yields a state violating the port invariant
(it would now fail `check_ports_different`). -/
theorem mutation_bypasses_validation (c : AgentContext) (h : validate c = .ok c) :
    (set_agent_port c c.hosting_port).agent_port =
      (set_agent_port c c.hosting_port).hosting_port ∧
    (set_agent_port c c.hosting_port).hosting_port = c.hosting_port ∧
    (set_agent_port c c.hosting_port).agent_name = c.agent_name ∧
    (set_agent_port c c.hosting_port).agent_seed_phrase = c.agent_seed_phrase ∧
    validate (set_agent_port c c.hosting_port) =
      .error (.agentContextError c.hosting_port c.hosting_port) := by
  obtain ⟨hfields, hne⟩ := (validate_ok_iff c).mp h
  obtain ⟨h1, h2, h3, h4, h5, h6, h7, h8, h9, h10, h11, h12⟩ :=
    (fieldErrors_nil_iff c).mp hfields
  have hfields2 : fieldErrors (set_agent_port c c.hosting_port) = [] :=
    (fieldErrors_nil_iff _).mpr ⟨h1, h2, h6, h4, h5, h6, h7, h8, h9, h10, h11, h12⟩
  refine ⟨rfl, rfl, rfl, rfl, ?_⟩
  have hp : (set_agent_port c c.hosting_port).agent_port =
      (set_agent_port c c.hosting_port).hosting_port := rfl
  unfold validate
  rw [if_pos hfields2, if_pos hp]
  rfl

theorem mutation_bypasses_validation_witness :
    validate (set_agent_port exCtx exCtx.hosting_port) =
      .error (.agentContextError exCtx.hosting_port exCtx.hosting_port) :=
  (mutation_bypasses_validation exCtx rfl).2.2.2.2

/-- Decoding of a lowercase hex digit, inverse to `hexDigit` below 16. -/
def hexVal (c : Char) : Nat :=
  if c.isDigit then c.toNat - 48 else c.toNat - 87

theorem hexVal_hexDigit (a : Nat) (ha : a < 16) : hexVal (hexDigit a) = a := by
  interval_cases a <;> decide

theorem hexDigit_inj (a b : Nat) (ha : a < 16) (hb : b < 16)
    (h : hexDigit a = hexDigit b) : a = b := by
  have h2 := congrArg hexVal h
  rwa [hexVal_hexDigit a ha, hexVal_hexDigit b hb] at h2

theorem token_hex_chars_inj (b1 : List Nat) :
    ∀ b2 : List Nat, (∀ x ∈ b1, x < 256) → (∀ x ∈ b2, x < 256) →
      b1.length = b2.length → token_hex_chars b1 = token_hex_chars b2 → b1 = b2 := by
  induction b1 with
  | nil =>
      intro b2 _ _ hlen _
      cases b2 with
      | nil => rfl
      | cons y t2 => exact absurd hlen (by simp)
  | cons x t1 ih =>
      intro b2 h1 h2 hlen heq
      cases b2 with
      | nil => exact absurd hlen (by simp)
      | cons y t2 =>
          simp only [token_hex_chars, List.cons.injEq] at heq
          obtain ⟨e1, e2, e3⟩ := heq
          have hx := h1 x (List.mem_cons_self _ _)
          have hy := h2 y (List.mem_cons_self _ _)
          have d1 : x / 16 = y / 16 :=
            hexDigit_inj _ _ (Nat.div_lt_of_lt_mul (by omega))
              (Nat.div_lt_of_lt_mul (by omega)) e1
          have d2 : x % 16 = y % 16 :=
            hexDigit_inj _ _ (Nat.mod_lt _ (by omega)) (Nat.mod_lt _ (by omega)) e2
          have hxy : x = y := by omega
          have ht : t1 = t2 :=
            ih t2 (fun z hz => h1 z (List.mem_cons_of_mem _ hz))
              (fun z hz => h2 z (List.mem_cons_of_mem _ hz)) (by simpa using hlen) e3
          rw [hxy, ht]

/-- Claim C10: the auto-generated seed phrase is `secrets.token_hex` of a
32-byte draw from the `secrets` CSPRNG; `token_hex` is injective on
32-byte sequences, so two distinct random draws always yield distinct
generated seed phrases. -/
theorem distinct_draws_distinct_seed_phrases (b1 b2 : List Nat)
    (h1 : ∀ x ∈ b1, x < 256) (h2 : ∀ x ∈ b2, x < 256)
    (hl1 : b1.length = 32) (hl2 : b2.length = 32) (hne : b1 ≠ b2) :
    token_hex b1 ≠ token_hex b2 := by
  intro h
  apply hne
  apply token_hex_chars_inj b1 b2 h1 h2 (by rw [hl1, hl2])
  have h3 := congrArg String.data h
  simpa [token_hex] using h3

theorem distinct_draws_distinct_seed_phrases_witness :
    token_hex (List.replicate 32 0) ≠ token_hex (1 :: List.replicate 31 0) :=
  distinct_draws_distinct_seed_phrases _ _ (by decide) (by decide)
    (by decide) (by decide) (by decide)

/-- Claim C6: every engine-level failure — template not found, a template
hitting an undefined context key, or any other engine failure — surfaces
from `TemplateRenderer.render` as the single `TemplateError` naming the
failing template and chaining the cause; the engine's error type never
reaches the caller, and output is returned exactly when the engine
succeeds (never partial or empty output on failure). -/
theorem render_wraps_engine_errors
    (engine : String → List (String × Value) → Except EngineError String)
    (tname : String) (ctx : List (String × Value)) :
    (∀ e, engine tname ctx = .error e →
        TemplateRenderer.render engine tname ctx =
          .error { template := tname, cause := e }) ∧
    (∀ te, TemplateRenderer.render engine tname ctx = .error te →
        te.template = tname ∧ engine tname ctx = .error te.cause) ∧
    (∀ s, TemplateRenderer.render engine tname ctx = .ok s ↔
        engine tname ctx = .ok s) := by
  refine ⟨?_, ?_, ?_⟩
  · intro e he
    simp [TemplateRenderer.render, he]
  · intro te hte
    cases he : engine tname ctx with
    | ok s =>
        rw [show TemplateRenderer.render engine tname ctx = .ok s by
          simp [TemplateRenderer.render, he]] at hte
        exact absurd hte (by simp)
    | error e =>
        rw [show TemplateRenderer.render engine tname ctx =
            .error { template := tname, cause := e } by
          simp [TemplateRenderer.render, he]] at hte
        have h3 := Except.error.inj hte
        subst h3
        exact ⟨rfl, rfl⟩
  · intro s
    cases he : engine tname ctx with
    | ok r => simp [TemplateRenderer.render, he]
    | error e => simp [TemplateRenderer.render, he]

/-- An engine that fails every call with `TemplateNotFound`. -/
def engineNotFound : String → List (String × Value) → Except EngineError String :=
  fun t _ => .error (.templateNotFound t)

theorem render_wraps_engine_errors_witness :
    TemplateRenderer.render engineNotFound "missing.j2" [] =
      .error { template := "missing.j2", cause := .templateNotFound "missing.j2" } :=
  (render_wraps_engine_errors engineNotFound "missing.j2" []).1
    (.templateNotFound "missing.j2") rfl

/-- Claim C4: when the target directory exists and `overwrite` is false,
`create_project` fails with the `ScaffoldError` carrying the conflicting
path and returns the directory state exactly as it was. -/
theorem create_project_exists_conflict (cwd : String)
    (render : String → List (String × Value) → Except TemplateError String)
    (st : DirState) (c : AgentContext) (hp : st.present = true) :
    create_project cwd render st c false =
      (.error (.scaffoldError (project_path cwd c)), st) := by
  unfold create_project
  rw [hp]
  rfl

/-- A renderer that always succeeds, echoing the template name. -/
def idRender : String → List (String × Value) → Except TemplateError String :=
  fun t _ => .ok t

/-- The output function realized by `idRender`. -/
def idR : String → List (String × Value) → String :=
  fun t _ => t

/-- An existing project directory holding one unrelated file. -/
def exDir : DirState :=
  { present := true, files := [("custom.txt", "original")] }

theorem create_project_exists_conflict_witness :
    create_project "/work" idRender exDir exCtx false =
      (.error (.scaffoldError (project_path "/work" exCtx)), exDir) :=
  create_project_exists_conflict "/work" idRender exDir exCtx rfl

/-- Claim C1: on a validated configuration whose target directory does not
exist, `create_project` creates the directory and writes exactly one
output file per `TEMPLATE_MAP` entry, in catalog order — the catalog
being exactly the eight named outputs — each file holding the renderer's
output for that entry's template applied to the full model dump, and
returns the target path `cwd ++ "/" ++ safe_name`. -/
theorem create_project_fresh (cwd : String)
    (R : String → List (String × Value) → String)
    (render : String → List (String × Value) → Except TemplateError String)
    (hR : ∀ t d, render t d = .ok (R t d))
    (st : DirState) (c : AgentContext) (overwrite : Bool)
    (_hv : validate c = .ok c) (hst : st = { present := false, files := [] }) :
    create_project cwd render st c overwrite =
      (.ok (project_path cwd c),
       { present := true,
         files := TEMPLATE_MAP.map (fun p => (p.2, R p.1 (model_dump cwd c))) }) ∧
    TEMPLATE_MAP.map Prod.snd =
      ["agent.py", "main.py", "Dockerfile", "docker-compose.yml",
       "pyproject.toml", "requirements.txt", ".env", "README.md"] ∧
    project_path cwd c = cwd ++ "/" ++ safe_name c := by
  subst hst
  have hrf : render = fun t d => .ok (R t d) := funext fun t => funext fun d => hR t d
  subst hrf
  exact ⟨rfl, rfl, rfl⟩

theorem create_project_fresh_witness :
    create_project "/work" idRender { present := false, files := [] } exCtx false =
      (.ok (project_path "/work" exCtx),
       { present := true,
         files := TEMPLATE_MAP.map
           (fun p => (p.2, idR p.1 (model_dump "/work" exCtx))) }) :=
  (create_project_fresh "/work" idR idRender (fun _ _ => rfl)
    { present := false, files := [] } exCtx false rfl rfl).1

theorem fsLookup_fsInsert_ne (q key v : String) (l : List (String × String))
    (h : q ≠ key) : fsLookup q (fsInsert key v l) = fsLookup q l := by
  have h2 : key ≠ q := fun hh => h hh.symm
  induction l with
  | nil => simp [fsInsert, fsLookup, h2]
  | cons hd tl ih =>
      obtain ⟨k0, v0⟩ := hd
      by_cases hk : k0 = key
      · subst hk
        simp [fsInsert, fsLookup, h2]
      · by_cases hq : k0 = q <;> simp [fsInsert, fsLookup, hk, hq, ih, h]

theorem write_files_total_ok (R : String → List (String × Value) → String)
    (ctx : List (String × Value)) :
    ∀ (tm : List (String × String)) (st : DirState),
      (write_files (fun t d => .ok (R t d)) ctx tm st).1 = .ok ()
  | [], _ => rfl
  | (_, _) :: rest, st =>
      write_files_total_ok R ctx rest { st with files := fsInsert _ _ st.files }

theorem write_files_total_lookup (R : String → List (String × Value) → String)
    (ctx : List (String × Value)) (name : String) :
    ∀ (tm : List (String × String)) (st : DirState),
      name ∉ tm.map Prod.snd →
      fsLookup name (write_files (fun t d => .ok (R t d)) ctx tm st).2.files =
        fsLookup name st.files
  | [], _, _ => rfl
  | (tname, oname) :: rest, st, hname => by
      simp only [List.map, List.mem_cons, not_or] at hname
      obtain ⟨hne, hrest⟩ := hname
      show fsLookup name (write_files (fun t d => .ok (R t d)) ctx rest
        { st with files := fsInsert oname (R tname ctx) st.files }).2.files =
          fsLookup name st.files
      rw [write_files_total_lookup R ctx name rest _ hrest]
      exact fsLookup_fsInsert_ne name oname (R tname ctx) st.files hne

/-- Claim C5: on an existing directory with `overwrite = true`,
`create_project` succeeds and writes only to the catalog output names:
any pre-existing file whose name is not a catalog output keeps its exact
content. -/
theorem create_project_overwrite_frame (cwd : String)
    (R : String → List (String × Value) → String)
    (render : String → List (String × Value) → Except TemplateError String)
    (hR : ∀ t d, render t d = .ok (R t d))
    (st : DirState) (c : AgentContext) (hp : st.present = true)
    (name : String) (hname : name ∉ TEMPLATE_MAP.map Prod.snd) :
    (create_project cwd render st c true).1 = .ok (project_path cwd c) ∧
    fsLookup name (create_project cwd render st c true).2.files =
      fsLookup name st.files := by
  have hrf : render = fun t d => .ok (R t d) := funext fun t => funext fun d => hR t d
  subst hrf
  have hw : write_files (fun t d => .ok (R t d)) (model_dump cwd c) TEMPLATE_MAP
        { st with present := true } =
      (.ok (), (write_files (fun t d => .ok (R t d)) (model_dump cwd c) TEMPLATE_MAP
        { st with present := true }).2) :=
    Prod.ext (write_files_total_ok R (model_dump cwd c) TEMPLATE_MAP _) rfl
  have key : create_project cwd (fun t d => .ok (R t d)) st c true =
      (.ok (project_path cwd c),
       (write_files (fun t d => .ok (R t d)) (model_dump cwd c) TEMPLATE_MAP
         { st with present := true }).2) := by
    unfold create_project
    rw [hp, hw]
    rfl
  refine ⟨by rw [key], ?_⟩
  rw [key]
  exact write_files_total_lookup R (model_dump cwd c) name TEMPLATE_MAP
    { st with present := true } hname

theorem create_project_overwrite_frame_witness :
    (create_project "/work" idRender exDir exCtx true).1 =
      .ok (project_path "/work" exCtx) ∧
    fsLookup "custom.txt" (create_project "/work" idRender exDir exCtx true).2.files =
      fsLookup "custom.txt" exDir.files :=
  create_project_overwrite_frame "/work" idR idRender (fun _ _ => rfl)
    exDir exCtx rfl "custom.txt" (by decide)
